import Mathlib

/-!
# pam_usernet: session provisioning of a per-user network namespace

A shallow embedding of `pam_usernet.c`.  Every libc / kernel / PAM call the
module makes is recorded, in program order, in a trace; the outcome of each
call is supplied by a `World`, which may answer differently depending on the
calls made so far.  The C functions become state-passing functions over
`St` (the trace and the current `errno`).

Conventions.  A call that follows the errno convention returns -1 and sets
`errno` when it fails, and leaves `errno` alone when it succeeds.  A directory
stream is the list of names its `readdir` calls yield before NULL.  Log calls
are recorded with their priority and format string only.  Heap deallocation
(`free`) has no effect that the trace could show and is not recorded; the mode
argument of `open` (0 where it is given) is not recorded either.
-/

namespace PamUsernet

/-! ## Constants (Linux values of the macros the module uses) -/

def NETNS_RUN_DIR : String := "/var/run/netns/"
def NETNS_ETC_DIR : String := "/etc/netns"

def ENOENT : Nat := 2
def EEXIST : Nat := 17
def EINVAL : Nat := 22

def MS_RDONLY : Nat := 1
def MS_BIND : Nat := 4096
def MS_REC : Nat := 16384
def MS_PRIVATE : Nat := 262144
def MS_SHARED : Nat := 1048576
def MNT_DETACH : Nat := 2
def ST_RDONLY : Nat := 1

def CLONE_NEWNS : Nat := 131072
def CLONE_NEWNET : Nat := 1073741824

def O_RDONLY : Nat := 0
def O_CREAT : Nat := 64
def O_EXCL : Nat := 128

/-- The mode `S_IRWXU|S_IRGRP|S_IXGRP|S_IROTH|S_IXOTH`, octal 0755. -/
def RUN_DIR_MODE : Nat := 493

def LOG_ERR : Nat := 3
def LOG_NOTICE : Nat := 5

def PAM_SUCCESS : Int := 0
def PAM_IGNORE : Int := 25
def PAM_ABORT : Int := 26

/-! ## Calls, outcomes, the world and the state -/

/-- One call made by the module, with the arguments that matter. -/
inductive Call where
  | setlogmask (upto : Nat)
  | openlog (ident : String)
  | closelog
  | syslog (priority : Nat) (format : String)
  | asprintf (result : String)
  | mkdir (path : String) (mode : Nat)
  | mount (source target fstype : String) (flags : Nat)
  | umount2 (target : String) (flags : Nat)
  | statvfs (path : String)
  | opendir (path : String)
  | readdir
  | closedir
  | c_open (path : String) (flags : Nat)
  | close (fd : Int)
  | unshare (flags : Nat)
  | setns (fd : Int) (nstype : Nat)
  | pam_get_user
  | checkgroup (user group : String)
  deriving DecidableEq, Repr

/-- Outcome of a call that follows the errno convention: success with a
non-negative value (0, or a new file descriptor), or -1 with `errno` set. -/
inductive Res where
  | ok (v : Nat)
  | err (errno : Nat)
  deriving DecidableEq, Repr

/-- Whether the outcome is a success. -/
def Res.isOk : Res → Bool
  | .ok _ => true
  | .err _ => false

/-- The environment.  Each field is consulted with the calls made so far. -/
structure World where
  /-- outcome of the call about to be made -/
  sys : List Call → Call → Res
  /-- value of `f_flag` a successful `statvfs` reports -/
  f_flag : List Call → Nat
  /-- names the successive `readdir` calls on a freshly opened stream yield
  before `readdir` returns NULL -/
  dirents : List Call → List String
  /-- return code of `pam_get_user` and the user name it stores -/
  get_user : List Call → Int × String
  /-- return value of `checkgroup` -/
  checkgroup : List Call → String → String → Int

/-- Program state: the calls made so far and the current `errno`. -/
structure St where
  trace : List Call
  errno : Nat
  deriving DecidableEq, Repr

/-- Record a call whose result the module does not use. -/
def emit (c : Call) (s : St) : St :=
  { trace := s.trace ++ [c], errno := s.errno }

/-- A call returning 0 on success and -1 (with `errno` set) on failure. -/
def call0 (w : World) (c : Call) (s : St) : Int × St :=
  match w.sys s.trace c with
  | .ok _ => (0, { trace := s.trace ++ [c], errno := s.errno })
  | .err e => (-1, { trace := s.trace ++ [c], errno := e })

/-- A call returning a non-negative value on success and -1 on failure. -/
def callv (w : World) (c : Call) (s : St) : Int × St :=
  match w.sys s.trace c with
  | .ok v => ((v : Int), { trace := s.trace ++ [c], errno := s.errno })
  | .err e => (-1, { trace := s.trace ++ [c], errno := e })

/-- The call `syslog(priority, format, ...)`. -/
def syslog (priority : Nat) (format : String) (s : St) : St :=
  emit (.syslog priority format) s

def mkdir (w : World) (path : String) (mode : Nat) (s : St) : Int × St :=
  call0 w (.mkdir path mode) s

def mount (w : World) (source target fstype : String) (flags : Nat) (s : St) : Int × St :=
  call0 w (.mount source target fstype flags) s

def umount2 (w : World) (target : String) (flags : Nat) (s : St) : Int × St :=
  call0 w (.umount2 target flags) s

def unshare (w : World) (flags : Nat) (s : St) : Int × St :=
  call0 w (.unshare flags) s

def setns (w : World) (fd : Int) (nstype : Nat) (s : St) : Int × St :=
  call0 w (.setns fd nstype) s

def c_open (w : World) (path : String) (flags : Nat) (s : St) : Int × St :=
  callv w (.c_open path flags) s

def close (fd : Int) (s : St) : St :=
  emit (.close fd) s

/-- The call `asprintf(&p, fmt, ...)` whose formatted text is `result`: returns the
number of bytes printed, or -1 when the allocation fails. -/
def asprintf (w : World) (result : String) (s : St) : Int × St :=
  match w.sys s.trace (.asprintf result) with
  | .ok _ => ((result.utf8ByteSize : Int), { trace := s.trace ++ [.asprintf result], errno := s.errno })
  | .err e => (-1, { trace := s.trace ++ [.asprintf result], errno := e })

/-- The call `statvfs(path, &fsstat)`: the return value and `fsstat.f_flag`. -/
def statvfs (w : World) (path : String) (s : St) : (Int × Nat) × St :=
  let r := call0 w (.statvfs path) s
  ((r.1, w.f_flag s.trace), r.2)

/-- The call `opendir(path)`: `none` is the NULL stream, `some l` a stream that
will yield the names `l`. -/
def opendir (w : World) (path : String) (s : St) : Option (List String) × St :=
  match w.sys s.trace (.opendir path) with
  | .ok _ => (some (w.dirents s.trace), { trace := s.trace ++ [.opendir path], errno := s.errno })
  | .err e => (none, { trace := s.trace ++ [.opendir path], errno := e })

/-! ## The module -/

def init_log (log_name : String) (s : St) : St :=
  emit (.openlog log_name) (emit (.setlogmask LOG_NOTICE) s)

def end_log (s : St) : St :=
  emit .closelog s

/-- create_netns_rundir: create the /var/run/netns mount if it does not exist yet. -/
def create_netns_rundir (w : World) (s : St) : Int × St :=
  let r := mkdir w NETNS_RUN_DIR RUN_DIR_MODE s
  if r.1 = -1 ∧ r.2.errno ≠ EEXIST then
    (-1, syslog LOG_ERR "cannot create netns dir %s: %s" r.2)
  else
    let r := mount w "" NETNS_RUN_DIR "none" (MS_SHARED ||| MS_REC) r.2
    if r.1 = 0 then
      (0, r.2)
    else if r.2.errno ≠ EINVAL then
      (-1, syslog LOG_ERR "mount --make-shared %s: %s" r.2)
    else
      let r := mount w NETNS_RUN_DIR NETNS_RUN_DIR "none" MS_BIND r.2
      if r.1 = -1 then
        (-1, syslog LOG_ERR "mount --bind %s: %s" r.2)
      else
        let r := mount w "" NETNS_RUN_DIR "none" (MS_SHARED ||| MS_REC) r.2
        if r.1 = -1 then
          (-1, syslog LOG_ERR "mount --make-shared after bind %s: %s" r.2)
        else
          (0, r.2)

/-- The readdir loop of bind_etc over the names the stream yields.  The result
is the value of `rv` on reaching the label `free_dir`: 0 when `readdir`
returned NULL and the loop ended, -1 when an `asprintf` failed and the loop
was left by `goto`. -/
def bind_etc_loop (w : World) (etc_netns_path : String) : List String → St → Int × St
  | [], s => (0, emit .readdir s)
  | d_name :: rest, s =>
    let s := emit .readdir s
    if d_name = "." then
      bind_etc_loop w etc_netns_path rest s
    else if d_name = ".." then
      bind_etc_loop w etc_netns_path rest s
    else
      let netns_name := etc_netns_path ++ "/" ++ d_name
      let r := asprintf w netns_name s
      if r.1 = -1 then
        (-1, r.2)
      else
        let etc_name := "/etc/" ++ d_name
        let r := asprintf w etc_name r.2
        if r.1 = -1 then
          (-1, r.2)
        else
          let r := mount w netns_name etc_name "none" MS_BIND r.2
          let s := if r.1 < 0 then syslog LOG_ERR "Bind %s -> %s failed: %s\n" r.2 else r.2
          bind_etc_loop w etc_netns_path rest s

/-- bind_etc: mount config files from /etc/netns/<name>/ into the current namespace. -/
def bind_etc (w : World) (name : String) (s : St) : Int × St :=
  let etc_netns_path := NETNS_ETC_DIR ++ "/" ++ name
  let r := asprintf w etc_netns_path s
  if r.1 = -1 then
    (-1, syslog LOG_ERR "allocating memory failed" r.2)
  else
    let r := mount w "/etc" "/etc" "none" MS_BIND r.2
    if r.1 = -1 then
      (-1, syslog LOG_ERR "mount --bind %s %s: %s" r.2)
    else
      let r := mount w "" "/etc" "none" MS_PRIVATE r.2
      if r.1 ≠ 0 then
        (-1, syslog LOG_ERR "\"mount --make-private /%s\" failed: %s\n" r.2)
      else
        let d := opendir w etc_netns_path r.2
        match d.1 with
        | none => (-1, d.2)
        | some entries =>
          let r := bind_etc_loop w etc_netns_path entries d.2
          let s := emit .closedir r.2
          if r.1 = -1 then
            (-1, syslog LOG_ERR "allocating memory failed" s)
          else
            (0, s)

/-- remount_sys: mount a version of /sys that describes the new network namespace. -/
def remount_sys (w : World) (name : String) (s : St) : Int × St :=
  let mountflags : Nat := 0
  let r := mount w "" "/" "none" (MS_PRIVATE ||| MS_REC) s
  if r.1 ≠ 0 then
    (-1, syslog LOG_ERR "\"mount --make-rprivate /\" failed: %s\n" r.2)
  else
    let u := umount2 w "/sys" MNT_DETACH r.2
    let p : Nat × St :=
      if u.1 < 0 then
        let st := statvfs w "/sys" u.2
        if st.1.1 = 0 then
          if st.1.2 &&& ST_RDONLY ≠ 0 then (MS_RDONLY, st.2) else (mountflags, st.2)
        else (mountflags, st.2)
      else (mountflags, u.2)
    let r := mount w name "/sys" "sysfs" p.1 p.2
    if r.1 < 0 then
      (-1, syslog LOG_ERR "mount of /sys failed: %s\n" r.2)
    else
      let r := mount w "" "/" "none" (MS_SHARED ||| MS_REC) r.2
      if r.1 ≠ 0 then
        (-1, syslog LOG_ERR "\"mount --make-rshared /\" failed: %s\n" r.2)
      else
        (0, r.2)

/-- unshare_netns: create a new netns, including mounting the handle to ns_path. -/
def unshare_netns (w : World) (ns_path : String) (s : St) : Int × St :=
  let o := c_open w ns_path (O_RDONLY ||| O_CREAT ||| O_EXCL) s
  let nsfd := o.1
  if nsfd < 0 then
    (-1, syslog LOG_ERR "cannot create netns %s: %s" o.2)
  else
    let s := close nsfd o.2
    let r := unshare w CLONE_NEWNET s
    if r.1 < 0 then
      (-1, syslog LOG_ERR "Failed to create a new netns %s: %s" r.2)
    else
      let r := mount w "/proc/self/ns/net" ns_path "none" MS_BIND r.2
      if r.1 = -1 then
        (-1, syslog LOG_ERR "mount /proc/self/ns/net -> %s failed: %s" r.2)
      else
        (nsfd, r.2)

/-- enter_netns: ensure we are in the netns referred to by ns_path, either by
creating it or entering it if it already exists. -/
def enter_netns (w : World) (ns_path : String) (s : St) : Int × St :=
  let o := c_open w ns_path O_RDONLY s
  let nsfd := o.1
  if nsfd < 0 then
    if o.2.errno = ENOENT then
      let u := unshare_netns w ns_path o.2
      (0, u.2)
    else
      (-1, syslog LOG_ERR "netns open failed %s" o.2)
  else
    let r := setns w nsfd CLONE_NEWNET o.2
    if r.1 ≠ 0 then
      (-1, close nsfd (syslog LOG_ERR "cannot join netns %s: %s" r.2))
    else
      (0, close nsfd r.2)

/-- The call `pam_get_user(pamh, &user, NULL)`: the return code and the user name. -/
def pam_get_user (w : World) (s : St) : (Int × String) × St :=
  (w.get_user s.trace, emit .pam_get_user s)

/-- The call `checkgroup(user, group)` of pam_net_checkgroup.h. -/
def checkgroup (w : World) (user group : String) (s : St) : Int × St :=
  (w.checkgroup s.trace user group, emit (.checkgroup user group) s)

/-- The label `close_log_and_abort` of pam_sm_open_session. -/
def close_log_and_abort (s : St) : Int × St :=
  (PAM_ABORT, end_log s)

/-- PAM entry point for session creation. -/
def pam_sm_open_session (w : World) (s : St) : Int × St :=
  let s := init_log "pam_usernet" s
  let g := pam_get_user w s
  let user := g.1.2
  if g.1.1 ≠ PAM_SUCCESS then
    (PAM_SUCCESS, end_log (syslog LOG_ERR "get user: %s" g.2))
  else
    let c := checkgroup w user "usernet" g.2
    let isusernet := c.1
    if isusernet ≤ 0 then
      (PAM_IGNORE, end_log c.2)
    else
      let r := create_netns_rundir w c.2
      if r.1 = -1 then
        close_log_and_abort r.2
      else
        let ns_path := NETNS_RUN_DIR ++ "/" ++ user
        let r := asprintf w ns_path r.2
        if r.1 = -1 then
          close_log_and_abort r.2
        else
          let r := enter_netns w ns_path r.2
          if r.1 = -1 then
            close_log_and_abort r.2
          else
            let r := unshare w CLONE_NEWNS r.2
            if r.1 < 0 then
              close_log_and_abort (syslog LOG_ERR "unshare(mount) failed: %s\n" r.2)
            else
              let r := remount_sys w user r.2
              if r.1 = -1 then
                close_log_and_abort (syslog LOG_ERR "remounting /sys failed" r.2)
              else
                let r := bind_etc w user r.2
                if r.1 = -1 then
                  close_log_and_abort (syslog LOG_ERR "mounting /etc/netns/%s config files failed" r.2)
                else
                  (PAM_SUCCESS, end_log r.2)

/-- PAM entry point for session cleanup. -/
def pam_sm_close_session : Int :=
  PAM_IGNORE

/-! ## Vocabulary for the statements -/

/-- The calls made between the state `s` and the later state `s2`. -/
def callsMade (s s2 : St) : List Call :=
  s2.trace.drop s.trace.length

/-- Whether the call is a `mount`. -/
def Call.isMount : Call → Bool
  | .mount _ _ _ _ => true
  | _ => false

/-- Whether the call is one of the provisioning operations: mkdir, mount,
umount2, unshare, setns or open. -/
def Call.isProvisioning : Call → Bool
  | .mkdir _ _ => true
  | .mount _ _ _ _ => true
  | .umount2 _ _ => true
  | .unshare _ => true
  | .setns _ _ => true
  | .c_open _ _ => true
  | _ => false

/-- Whether the call only writes to or closes the log. -/
def Call.isLog : Call → Bool
  | .syslog _ _ => true
  | .closelog => true
  | _ => false

/-- Every `asprintf` succeeds in the world: path formatting never fails. -/
def AllocOk (w : World) : Prop :=
  ∀ (t : List Call) (str : String), (w.sys t (.asprintf str)).isOk = true

/-- Whether the call mounts a filesystem of type sysfs. -/
def Call.isSysfsMount : Call → Bool
  | .mount _ _ fstype _ => fstype = "sysfs"
  | _ => false

/-- The per-entry bind mounts for a listing: the entries `.` and `..` removed,
every other entry `e`, in listing order, mounted from `dir/e` onto `/etc/e`. -/
def entryMounts (dir : String) (listing : List String) : List Call :=
  (listing.filter (fun e => e ≠ "." ∧ e ≠ "..")).map
    (fun e => Call.mount (dir ++ "/" ++ e) ("/etc/" ++ e) "none" MS_BIND)

/-- The provisioning pipeline as the design states it: the steps run in the
given order, each one only if every earlier one reported success (a step
reports failure by returning -1).  The result tells whether all steps reported
success, together with the state reached. -/
def run_steps : List (St → Int × St) → St → Bool × St
  | [], s => (true, s)
  | step :: rest, s =>
    let r := step s
    if r.1 = -1 then (false, r.2) else run_steps rest r.2

/-- The user lookup at the start of pam_sm_open_session. -/
def lookup (w : World) (s : St) : (Int × String) × St :=
  pam_get_user w (init_log "pam_usernet" s)

/-- The group-membership query of pam_sm_open_session, made after the lookup. -/
def membership (w : World) (s : St) : Int × St :=
  checkgroup w (lookup w s).1.2 "usernet" (lookup w s).2

/-! ## Concrete worlds used to run the module -/

/-- A world in which every call succeeds, the user is `alice`, a member of the
group, and the configuration directory lists `entries`. -/
def worldOk (entries : List String) : World where
  sys := fun _ _ => .ok 0
  f_flag := fun _ => 0
  dirents := fun _ => entries
  get_user := fun _ => (PAM_SUCCESS, "alice")
  checkgroup := fun _ _ _ => 1

/-- The initial state: nothing called yet, `errno` clear. -/
def St.init : St := ⟨[], 0⟩

/-- A world in which the handle does not exist when probed, but the exclusive
create then fails with EEXIST because another login created it in between;
every other call succeeds. -/
def worldLostRace : World where
  sys := fun _ c =>
    match c with
    | .c_open _ flags => if flags = O_RDONLY then .err ENOENT else .err EEXIST
    | _ => .ok 0
  f_flag := fun _ => 0
  dirents := fun _ => []
  get_user := fun _ => (PAM_SUCCESS, "alice")
  checkgroup := fun _ _ _ => 1

/-- A world in which opening any file fails with EACCES (13) and every other
call succeeds. -/
def worldNoAccess : World where
  sys := fun _ c =>
    match c with
    | .c_open _ _ => .err 13
    | _ => .ok 0
  f_flag := fun _ => 0
  dirents := fun _ => []
  get_user := fun _ => (PAM_SUCCESS, "alice")
  checkgroup := fun _ _ _ => 1

/-- A world in which the lazy detach of /sys fails with EINVAL, the sysfs that
remains at /sys is read-only, and every other call succeeds. -/
def worldReadOnlySys : World where
  sys := fun _ c =>
    match c with
    | .umount2 _ _ => .err EINVAL
    | _ => .ok 0
  f_flag := fun _ => ST_RDONLY
  dirents := fun _ => []
  get_user := fun _ => (PAM_SUCCESS, "alice")
  checkgroup := fun _ _ _ => 1

/-- A world in which the user is `alice`, the configuration directory lists
`.`, `resolv.conf`, `..` and `hosts`, the bind mount onto /etc/resolv.conf fails
with EPERM (1), and every other call succeeds. -/
def worldBrokenEntry : World where
  sys := fun _ c =>
    match c with
    | .mount _ target _ _ => if target = "/etc/resolv.conf" then .err 1 else .ok 0
    | _ => .ok 0
  f_flag := fun _ => 0
  dirents := fun _ => [".", "resolv.conf", "..", "hosts"]
  get_user := fun _ => (PAM_SUCCESS, "alice")
  checkgroup := fun _ _ _ => 1

/-- A world in which the user `bob` is not a member of the group. -/
def worldNotMember : World where
  sys := fun _ _ => .ok 0
  f_flag := fun _ => 0
  dirents := fun _ => []
  get_user := fun _ => (PAM_SUCCESS, "bob")
  checkgroup := fun _ _ _ => 0

/-- A world in which the user lookup fails with PAM_SYSTEM_ERR (4). -/
def worldNoUser : World where
  sys := fun _ _ => .ok 0
  f_flag := fun _ => 0
  dirents := fun _ => []
  get_user := fun _ => (4, "")
  checkgroup := fun _ _ _ => 1

/-- A world in which `alice` is a member, the handle exists and can be joined,
but detaching the mount namespace, unshare(CLONE_NEWNS), fails with EPERM (1). -/
def worldNoMountNs : World where
  sys := fun _ c =>
    match c with
    | .unshare _ => .err 1
    | _ => .ok 0
  f_flag := fun _ => 0
  dirents := fun _ => []
  get_user := fun _ => (PAM_SUCCESS, "alice")
  checkgroup := fun _ _ _ => 1

/-! ## Facts about the primitive calls -/

theorem call0_fst (w : World) (c : Call) (s : St) :
    (call0 w c s).1 = if (w.sys s.trace c).isOk then 0 else -1 := by
  unfold call0
  cases w.sys s.trace c <;> simp [Res.isOk]

theorem call0_trace (w : World) (c : Call) (s : St) :
    (call0 w c s).2.trace = s.trace ++ [c] := by
  unfold call0
  cases w.sys s.trace c <;> simp

theorem call0_ok (w : World) (c : Call) (s : St) (h : (w.sys s.trace c).isOk = true) :
    call0 w c s = (0, { trace := s.trace ++ [c], errno := s.errno }) := by
  unfold call0
  cases h2 : w.sys s.trace c with
  | ok v => rfl
  | err e => simp [h2, Res.isOk] at h

theorem opendir_ok (w : World) (path : String) (s : St)
    (h : (w.sys s.trace (.opendir path)).isOk = true) :
    opendir w path s =
      (some (w.dirents s.trace), { trace := s.trace ++ [.opendir path], errno := s.errno }) := by
  unfold opendir
  cases h2 : w.sys s.trace (.opendir path) with
  | ok v => rfl
  | err e => simp [h2, Res.isOk] at h

theorem opendir_fail (w : World) (path : String) (s : St)
    (h : ¬ (w.sys s.trace (.opendir path)).isOk = true) :
    (opendir w path s).1 = none ∧ (opendir w path s).2.trace = s.trace ++ [.opendir path] := by
  unfold opendir
  cases h2 : w.sys s.trace (.opendir path) with
  | ok v => simp [h2, Res.isOk] at h
  | err e => exact ⟨rfl, rfl⟩

theorem etc_netns_path_eq (name : String) :
    NETNS_ETC_DIR ++ "/" ++ name = "/etc/netns/" ++ name := by
  rw [String.append_assoc]
  rfl

theorem unshare_neg_iff (w : World) (flags : Nat) (s : St) :
    (unshare w flags s).1 < 0 ↔ (unshare w flags s).1 = -1 := by
  simp only [unshare, call0_fst]
  split_ifs <;> simp

theorem asprintf_ok (w : World) (h : AllocOk w) (str : String) (s : St) :
    asprintf w str s =
      ((str.utf8ByteSize : Int), { trace := s.trace ++ [.asprintf str], errno := s.errno }) := by
  have h1 := h s.trace str
  unfold asprintf
  cases h2 : w.sys s.trace (.asprintf str) with
  | ok v => rfl
  | err e => simp [h2, Res.isOk] at h1

theorem bind_etc_loop_spec (w : World) (h : AllocOk w) (dir : String) (l : List String) :
    ∀ s : St, (bind_etc_loop w dir l s).1 = 0 ∧
      ∃ evs : List Call, (bind_etc_loop w dir l s).2.trace = s.trace ++ evs ∧
        evs.filter Call.isMount = entryMounts dir l := by
  induction l with
  | nil =>
    intro s
    exact ⟨rfl, [.readdir], rfl, rfl⟩
  | cons d rest ih =>
    intro s
    have hsz : ∀ n : Nat, ¬ ((n : Int) = -1) := fun n => by omega
    by_cases h1 : d = "."
    · obtain ⟨ha, evs, hb, hc⟩ := ih (emit .readdir s)
      refine ⟨by simpa [bind_etc_loop, h1] using ha, .readdir :: evs, ?_, ?_⟩
      · simpa [bind_etc_loop, h1, emit] using hb
      · simpa [entryMounts, h1, Call.isMount] using hc
    · by_cases h2 : d = ".."
      · obtain ⟨ha, evs, hb, hc⟩ := ih (emit .readdir s)
        refine ⟨by simpa [bind_etc_loop, h2] using ha, .readdir :: evs, ?_, ?_⟩
        · simpa [bind_etc_loop, h2, emit] using hb
        · simpa [entryMounts, h2, Call.isMount] using hc
      · have key : ∃ s2 : St,
            bind_etc_loop w dir (d :: rest) s = bind_etc_loop w dir rest s2 ∧
            ∃ pre : List Call, s2.trace = s.trace ++ pre ∧
              pre.filter Call.isMount =
                [.mount (dir ++ "/" ++ d) ("/etc/" ++ d) "none" MS_BIND] := by
          refine ⟨if (mount w (dir ++ "/" ++ d) ("/etc/" ++ d) "none" MS_BIND
                { trace := s.trace ++ [.readdir, .asprintf (dir ++ "/" ++ d),
                    .asprintf ("/etc/" ++ d)], errno := s.errno }).1 < 0
              then syslog LOG_ERR "Bind %s -> %s failed: %s\n"
                (mount w (dir ++ "/" ++ d) ("/etc/" ++ d) "none" MS_BIND
                  { trace := s.trace ++ [.readdir, .asprintf (dir ++ "/" ++ d),
                      .asprintf ("/etc/" ++ d)], errno := s.errno }).2
              else (mount w (dir ++ "/" ++ d) ("/etc/" ++ d) "none" MS_BIND
                  { trace := s.trace ++ [.readdir, .asprintf (dir ++ "/" ++ d),
                      .asprintf ("/etc/" ++ d)], errno := s.errno }).2, ?_, ?_⟩
          · simp [bind_etc_loop, h1, h2, asprintf_ok w h, hsz, emit]
          · by_cases hm : (w.sys (s.trace ++ [.readdir, .asprintf (dir ++ "/" ++ d),
              .asprintf ("/etc/" ++ d)])
              (.mount (dir ++ "/" ++ d) ("/etc/" ++ d) "none" MS_BIND)).isOk = true
            · refine ⟨[.readdir, .asprintf (dir ++ "/" ++ d), .asprintf ("/etc/" ++ d),
                .mount (dir ++ "/" ++ d) ("/etc/" ++ d) "none" MS_BIND], ?_, ?_⟩
              · simp [mount, call0_fst, call0_trace, emit, hm]
              · simp [Call.isMount]
            · refine ⟨[.readdir, .asprintf (dir ++ "/" ++ d), .asprintf ("/etc/" ++ d),
                .mount (dir ++ "/" ++ d) ("/etc/" ++ d) "none" MS_BIND,
                .syslog LOG_ERR "Bind %s -> %s failed: %s\n"], ?_, ?_⟩
              · simp [mount, call0_fst, call0_trace, emit, syslog, hm]
              · simp [Call.isMount]
        obtain ⟨s2, hstep, pre, hpre, hfil⟩ := key
        obtain ⟨ha, evs, hb, hc⟩ := ih s2
        rw [hstep]
        refine ⟨ha, pre ++ evs, ?_, ?_⟩
        · rw [hb, hpre, List.append_assoc]
        · rw [List.filter_append, hfil, hc]
          simp [entryMounts, h1, h2]

/-! ## The run directory -/

theorem ms_bind_ne_shared_rec : ¬ MS_BIND = MS_SHARED ||| MS_REC := by
  decide

/-- C4: create_netns_rundir returns 0 exactly when mkdir succeeds or fails with
EEXIST and then either the first mark-shared-recursive mount succeeds, or it
fails with EINVAL and both the self bind mount and the retried mark-shared
mount succeed; otherwise it returns -1.  The self bind mount is among the calls
made exactly when mkdir was accepted and the first mark-shared failed with
EINVAL. -/
theorem create_netns_rundir_result (w : World) (s : St) :
    let mk := Call.mkdir NETNS_RUN_DIR RUN_DIR_MODE
    let shared := Call.mount "" NETNS_RUN_DIR "none" (MS_SHARED ||| MS_REC)
    let bind := Call.mount NETNS_RUN_DIR NETNS_RUN_DIR "none" MS_BIND
    let r := create_netns_rundir w s
    let mkdirRes := w.sys s.trace mk
    let firstRes := w.sys (s.trace ++ [mk]) shared
    let bindRes := w.sys (s.trace ++ [mk, shared]) bind
    let retryRes := w.sys (s.trace ++ [mk, shared, bind]) shared
    (r.1 = 0 ↔
      (mkdirRes.isOk ∨ mkdirRes = .err EEXIST) ∧
      (firstRes.isOk ∨ (firstRes = .err EINVAL ∧ bindRes.isOk ∧ retryRes.isOk))) ∧
    (r.1 = 0 ∨ r.1 = -1) ∧
    (bind ∈ callsMade s r.2 ↔
      (mkdirRes.isOk ∨ mkdirRes = .err EEXIST) ∧ firstRes = .err EINVAL) := by
  intro mk shared bind r mkdirRes firstRes bindRes retryRes
  simp only [r, mkdirRes, firstRes, bindRes, retryRes, mk, shared, bind]
  rcases h1 : w.sys s.trace (Call.mkdir NETNS_RUN_DIR RUN_DIR_MODE) with v1 | e1 <;>
  rcases h2 : w.sys (s.trace ++ [Call.mkdir NETNS_RUN_DIR RUN_DIR_MODE])
    (Call.mount "" NETNS_RUN_DIR "none" (MS_SHARED ||| MS_REC)) with v2 | e2 <;>
  rcases h3 : w.sys (s.trace ++ [Call.mkdir NETNS_RUN_DIR RUN_DIR_MODE,
    Call.mount "" NETNS_RUN_DIR "none" (MS_SHARED ||| MS_REC)])
    (Call.mount NETNS_RUN_DIR NETNS_RUN_DIR "none" MS_BIND) with v3 | e3 <;>
  rcases h4 : w.sys (s.trace ++ [Call.mkdir NETNS_RUN_DIR RUN_DIR_MODE,
    Call.mount "" NETNS_RUN_DIR "none" (MS_SHARED ||| MS_REC),
    Call.mount NETNS_RUN_DIR NETNS_RUN_DIR "none" MS_BIND])
    (Call.mount "" NETNS_RUN_DIR "none" (MS_SHARED ||| MS_REC)) with v4 | e4 <;>
  simp [create_netns_rundir, mkdir, mount, call0, syslog, emit, callsMade, h1, h2, h3, h4,
    Res.isOk, ms_bind_ne_shared_rec] <;>
  split_ifs <;> simp_all [ms_bind_ne_shared_rec]

/-! ## The namespace handle -/

/-- Whenever the probe fails with ENOENT, enter_netns returns 0 and ends in the
state unshare_netns left, whatever unshare_netns returned. -/
theorem enter_netns_create_result_discarded (w : World) (ns_path : String) (s : St)
    (h : w.sys s.trace (.c_open ns_path O_RDONLY) = .err ENOENT) :
    (enter_netns w ns_path s).1 = 0 ∧
    (enter_netns w ns_path s).2 =
      (unshare_netns w ns_path
        { trace := s.trace ++ [.c_open ns_path O_RDONLY], errno := ENOENT }).2 := by
  simp [enter_netns, c_open, callv, h]

/-- C1, at the failing input: the probe of the handle fails with ENOENT and the
exclusive create fails with EEXIST.  The create branch unshare_netns returns -1
having made no unshare and no bind mount, yet enter_netns returns 0, and the
whole session is reported as PAM_SUCCESS. -/
theorem enter_netns_lost_race_returns_zero :
    (unshare_netns worldLostRace "/var/run/netns//alice" St.init).1 = -1 ∧
    (enter_netns worldLostRace "/var/run/netns//alice" St.init).1 = 0 ∧
    (enter_netns worldLostRace "/var/run/netns//alice" St.init).2.trace =
      [Call.c_open "/var/run/netns//alice" O_RDONLY,
       Call.c_open "/var/run/netns//alice" (O_RDONLY ||| O_CREAT ||| O_EXCL),
       Call.syslog LOG_ERR "cannot create netns %s: %s"] ∧
    (pam_sm_open_session worldLostRace St.init).1 = PAM_SUCCESS := by
  decide

/-- C5: when the read-only probe of the handle succeeds with descriptor `fd`,
enter_netns makes exactly the calls open, setns(fd, CLONE_NEWNET), a log line if
setns failed, and close(fd): no exclusive create, no unshare, no bind mount; it
returns 0 if setns succeeded and -1 otherwise.  When the probe fails with an
error other than ENOENT it returns -1 having made no further call but the log. -/
theorem enter_netns_join_or_fatal (w : World) (ns_path : String) (s : St) :
    (∀ fd : Nat, w.sys s.trace (.c_open ns_path O_RDONLY) = .ok fd →
      let joined := (w.sys (s.trace ++ [.c_open ns_path O_RDONLY]) (.setns fd CLONE_NEWNET)).isOk
      ((enter_netns w ns_path s).1 = 0 ↔ joined = true) ∧
      ((enter_netns w ns_path s).1 = -1 ↔ joined = false) ∧
      callsMade s (enter_netns w ns_path s).2 =
        [.c_open ns_path O_RDONLY, .setns fd CLONE_NEWNET] ++
        (if joined then [] else [.syslog LOG_ERR "cannot join netns %s: %s"]) ++
        [.close fd]) ∧
    (∀ e : Nat, w.sys s.trace (.c_open ns_path O_RDONLY) = .err e → e ≠ ENOENT →
      (enter_netns w ns_path s).1 = -1 ∧
      callsMade s (enter_netns w ns_path s).2 =
        [.c_open ns_path O_RDONLY, .syslog LOG_ERR "netns open failed %s"]) := by
  constructor
  · intro fd h1
    have hfd : ¬ ((fd : Int) < 0) := by omega
    rcases h2 : w.sys (s.trace ++ [.c_open ns_path O_RDONLY]) (.setns fd CLONE_NEWNET)
      with v2 | e2 <;>
    simp [enter_netns, c_open, callv, setns, call0, close, syslog, emit, callsMade, h1, h2,
      Res.isOk, hfd]
  · intro e h1 he
    simp [enter_netns, c_open, callv, syslog, emit, callsMade, h1, he]

/-- C5 at concrete inputs: a world where the probe succeeds, and one where it
fails with EACCES. -/
theorem enter_netns_join_or_fatal_witness :
    (enter_netns (worldOk []) "/var/run/netns//alice" St.init).1 = 0 ∧
    (enter_netns worldNoAccess "/var/run/netns//alice" St.init).1 = -1 :=
  ⟨(((enter_netns_join_or_fatal (worldOk []) "/var/run/netns//alice" St.init).1 0 rfl).1).2 rfl,
   ((enter_netns_join_or_fatal worldNoAccess "/var/run/netns//alice" St.init).2 13 rfl
      (by decide)).1⟩

/-! ## The sysfs remount -/

/-- C6: remount_sys returns 0 exactly when the make-private-recursive of `/`,
the sysfs mount at /sys and the make-shared-recursive of `/` all succeed, and
-1 otherwise; the outcome of the lazy detach of /sys is not among the
conditions, and the sysfs mount is made, after the detach, whenever the
make-private succeeded, whether the detach succeeded or failed. -/
theorem remount_sys_result (w : World) (name : String) (s : St) :
    let priv := Call.mount "" "/" "none" (MS_PRIVATE ||| MS_REC)
    let detach := Call.umount2 "/sys" MNT_DETACH
    let shared := Call.mount "" "/" "none" (MS_SHARED ||| MS_REC)
    let detached := (w.sys (s.trace ++ [priv]) detach).isOk
    let probed := (w.sys (s.trace ++ [priv, detach]) (.statvfs "/sys")).isOk
    let f_flag := w.f_flag (s.trace ++ [priv, detach])
    let before := if detached then [priv, detach] else [priv, detach, .statvfs "/sys"]
    let flags := if detached = false ∧ probed = true ∧ f_flag &&& ST_RDONLY ≠ 0 then MS_RDONLY else 0
    let sysfs := Call.mount name "/sys" "sysfs" flags
    let r := remount_sys w name s
    (r.1 = 0 ↔
      (w.sys s.trace priv).isOk = true ∧
      (w.sys (s.trace ++ before) sysfs).isOk = true ∧
      (w.sys (s.trace ++ before ++ [sysfs]) shared).isOk = true) ∧
    (r.1 = 0 ∨ r.1 = -1) ∧
    ((callsMade s r.2).take (before.length + 1) = before ++ [sysfs] ↔
      (w.sys s.trace priv).isOk = true) := by
  intro priv detach shared detached probed f_flag before flags sysfs r
  simp only [r, sysfs, flags, before, f_flag, probed, detached, shared, detach, priv]
  by_cases hp : (w.sys s.trace (Call.mount "" "/" "none" (MS_PRIVATE ||| MS_REC))).isOk = true <;>
  by_cases hd : (w.sys (s.trace ++ [Call.mount "" "/" "none" (MS_PRIVATE ||| MS_REC)])
    (Call.umount2 "/sys" MNT_DETACH)).isOk = true <;>
  by_cases hs : (w.sys (s.trace ++ [Call.mount "" "/" "none" (MS_PRIVATE ||| MS_REC),
    Call.umount2 "/sys" MNT_DETACH]) (Call.statvfs "/sys")).isOk = true <;>
  by_cases hro : w.f_flag (s.trace ++ [Call.mount "" "/" "none" (MS_PRIVATE ||| MS_REC),
    Call.umount2 "/sys" MNT_DETACH]) &&& ST_RDONLY = 0 <;>
  simp [remount_sys, mount, umount2, statvfs, call0_fst, call0_trace, syslog, emit, callsMade,
    hp, hd, hs, hro] <;>
  split_ifs <;> simp_all [call0_trace]

/-- C7: once the make-private of `/` has succeeded, remount_sys makes exactly
one sysfs mount, at /sys, and its flags are MS_RDONLY if and only if the detach
of /sys failed, the statvfs probe of /sys succeeded and the reported f_flag has
ST_RDONLY set; in every other case the flags are 0. -/
theorem remount_sys_mountflags (w : World) (name : String) (s : St)
    (hpriv : (w.sys s.trace (.mount "" "/" "none" (MS_PRIVATE ||| MS_REC))).isOk = true) :
    let priv := Call.mount "" "/" "none" (MS_PRIVATE ||| MS_REC)
    let detach := Call.umount2 "/sys" MNT_DETACH
    let detached := (w.sys (s.trace ++ [priv]) detach).isOk
    let probed := (w.sys (s.trace ++ [priv, detach]) (.statvfs "/sys")).isOk
    let f_flag := w.f_flag (s.trace ++ [priv, detach])
    ∃ mountflags : Nat,
      (callsMade s (remount_sys w name s).2).filter Call.isSysfsMount =
        [Call.mount name "/sys" "sysfs" mountflags] ∧
      (mountflags = MS_RDONLY ↔
        detached = false ∧ probed = true ∧ f_flag &&& ST_RDONLY ≠ 0) ∧
      (¬ (detached = false ∧ probed = true ∧ f_flag &&& ST_RDONLY ≠ 0) → mountflags = 0) := by
  intro priv detach detached probed f_flag
  refine ⟨if detached = false ∧ probed = true ∧ f_flag &&& ST_RDONLY ≠ 0 then MS_RDONLY else 0,
    ?_, ?_, ?_⟩
  · simp only [f_flag, probed, detached, detach, priv]
    by_cases hd : (w.sys (s.trace ++ [Call.mount "" "/" "none" (MS_PRIVATE ||| MS_REC)])
      (Call.umount2 "/sys" MNT_DETACH)).isOk = true <;>
    by_cases hs : (w.sys (s.trace ++ [Call.mount "" "/" "none" (MS_PRIVATE ||| MS_REC),
      Call.umount2 "/sys" MNT_DETACH]) (Call.statvfs "/sys")).isOk = true <;>
    by_cases hro : w.f_flag (s.trace ++ [Call.mount "" "/" "none" (MS_PRIVATE ||| MS_REC),
      Call.umount2 "/sys" MNT_DETACH]) &&& ST_RDONLY = 0 <;>
    simp [remount_sys, mount, umount2, statvfs, call0_fst, call0_trace, syslog, emit, callsMade,
      hpriv, hd, hs, hro] <;>
    split_ifs <;> simp_all [call0_trace, Call.isSysfsMount]
  · split_ifs with h
    · simp [h]
    · simp only [h, iff_false]
      decide
  · intro h
    simp [h]

/-- C7 at a concrete input: the detach fails and a read-only sysfs remains, so
the replacement is mounted read-only. -/
theorem remount_sys_mountflags_witness :
    ∃ mountflags : Nat,
      (callsMade St.init (remount_sys worldReadOnlySys "alice" St.init).2).filter
        Call.isSysfsMount = [Call.mount "alice" "/sys" "sysfs" mountflags] ∧
      mountflags = MS_RDONLY := by
  obtain ⟨mountflags, h1, h2, _⟩ :=
    remount_sys_mountflags worldReadOnlySys "alice" St.init (by decide)
  exact ⟨mountflags, h1, h2.mpr (by decide)⟩

/-! ## The configuration overlay -/

/-- C9: when path formatting never fails and the three setup operations of
bind_etc succeed, the mounts bind_etc makes are the two setup mounts followed
by one bind mount per directory entry other than `.` and `..`, in listing
order, each from `/etc/netns/<name>/<e>` onto `/etc/<e>`, whatever the outcome
of the individual bind mounts. -/
theorem bind_etc_mounts (w : World) (name : String) (s : St) (halloc : AllocOk w)
    (hbind : (w.sys (s.trace ++ [.asprintf ("/etc/netns/" ++ name)])
      (.mount "/etc" "/etc" "none" MS_BIND)).isOk = true)
    (hpriv : (w.sys (s.trace ++ [.asprintf ("/etc/netns/" ++ name),
      .mount "/etc" "/etc" "none" MS_BIND]) (.mount "" "/etc" "none" MS_PRIVATE)).isOk = true)
    (hopen : (w.sys (s.trace ++ [.asprintf ("/etc/netns/" ++ name),
      .mount "/etc" "/etc" "none" MS_BIND, .mount "" "/etc" "none" MS_PRIVATE])
      (.opendir ("/etc/netns/" ++ name))).isOk = true) :
    (callsMade s (bind_etc w name s).2).filter Call.isMount =
      [Call.mount "/etc" "/etc" "none" MS_BIND, Call.mount "" "/etc" "none" MS_PRIVATE] ++
      ((w.dirents (s.trace ++ [.asprintf ("/etc/netns/" ++ name),
          .mount "/etc" "/etc" "none" MS_BIND, .mount "" "/etc" "none" MS_PRIVATE])).filter
        (fun e => e ≠ "." ∧ e ≠ "..")).map
        (fun e => Call.mount ("/etc/netns/" ++ name ++ "/" ++ e) ("/etc/" ++ e) "none" MS_BIND) := by
  have hsz : ∀ n : Nat, ¬ ((n : Int) = -1) := fun n => by omega
  obtain ⟨ha, evs, hb, hc⟩ := bind_etc_loop_spec w halloc ("/etc/netns/" ++ name)
    (w.dirents (s.trace ++ [.asprintf ("/etc/netns/" ++ name),
      .mount "/etc" "/etc" "none" MS_BIND, .mount "" "/etc" "none" MS_PRIVATE]))
    { trace := s.trace ++ [.asprintf ("/etc/netns/" ++ name),
        .mount "/etc" "/etc" "none" MS_BIND, .mount "" "/etc" "none" MS_PRIVATE,
        .opendir ("/etc/netns/" ++ name)], errno := s.errno }
  simp [bind_etc, etc_netns_path_eq, asprintf_ok w halloc, hsz, mount, call0_ok, opendir_ok,
    hbind, hpriv, hopen, ha, hb, emit, callsMade, Call.isMount, hc, entryMounts]

theorem allocOk_worldBrokenEntry : AllocOk worldBrokenEntry :=
  fun _ _ => rfl

/-- C9 at a concrete input: the listing is `.`, `resolv.conf`, `..`, `hosts` and
the bind mount of resolv.conf fails; the mount of hosts is still made. -/
theorem bind_etc_mounts_witness :
    (callsMade St.init (bind_etc worldBrokenEntry "alice" St.init).2).filter Call.isMount =
      [Call.mount "/etc" "/etc" "none" MS_BIND, Call.mount "" "/etc" "none" MS_PRIVATE,
       Call.mount "/etc/netns/alice/resolv.conf" "/etc/resolv.conf" "none" MS_BIND,
       Call.mount "/etc/netns/alice/hosts" "/etc/hosts" "none" MS_BIND] :=
  bind_etc_mounts worldBrokenEntry "alice" St.init allocOk_worldBrokenEntry
    (by decide) (by decide) (by decide)

/-- C8: when path formatting never fails, bind_etc returns 0 exactly when the
self bind mount of /etc, the make-private of /etc and the opendir of the
per-identity directory all succeed, whatever the listing and whatever the
outcome of the per-entry bind mounts, and returns -1 otherwise; when one of the
three fails the only mounts made are the setup mounts attempted so far, so no
per-entry bind mount is made. -/
theorem bind_etc_result (w : World) (name : String) (s : St) (halloc : AllocOk w) :
    let fmt := Call.asprintf ("/etc/netns/" ++ name)
    let etcBind := Call.mount "/etc" "/etc" "none" MS_BIND
    let etcPriv := Call.mount "" "/etc" "none" MS_PRIVATE
    let bindOk := (w.sys (s.trace ++ [fmt]) etcBind).isOk
    let privOk := (w.sys (s.trace ++ [fmt, etcBind]) etcPriv).isOk
    let openOk := (w.sys (s.trace ++ [fmt, etcBind, etcPriv])
      (.opendir ("/etc/netns/" ++ name))).isOk
    let r := bind_etc w name s
    (r.1 = 0 ↔ bindOk = true ∧ privOk = true ∧ openOk = true) ∧
    (r.1 = 0 ∨ r.1 = -1) ∧
    (¬ (bindOk = true ∧ privOk = true ∧ openOk = true) →
      (callsMade s r.2).filter Call.isMount = (if bindOk then [etcBind, etcPriv] else [etcBind]) ∧
      Call.readdir ∉ callsMade s r.2) := by
  intro fmt etcBind etcPriv bindOk privOk openOk r
  have hsz : ∀ n : Nat, ¬ ((n : Int) = -1) := fun n => by omega
  simp only [r, openOk, privOk, bindOk, etcPriv, etcBind, fmt]
  by_cases hbind : (w.sys (s.trace ++ [.asprintf ("/etc/netns/" ++ name)])
      (.mount "/etc" "/etc" "none" MS_BIND)).isOk = true
  · by_cases hpriv : (w.sys (s.trace ++ [.asprintf ("/etc/netns/" ++ name),
        .mount "/etc" "/etc" "none" MS_BIND]) (.mount "" "/etc" "none" MS_PRIVATE)).isOk = true
    · by_cases hopen : (w.sys (s.trace ++ [.asprintf ("/etc/netns/" ++ name),
          .mount "/etc" "/etc" "none" MS_BIND, .mount "" "/etc" "none" MS_PRIVATE])
          (.opendir ("/etc/netns/" ++ name))).isOk = true
      · obtain ⟨ha, -⟩ := bind_etc_loop_spec w halloc ("/etc/netns/" ++ name)
          (w.dirents (s.trace ++ [.asprintf ("/etc/netns/" ++ name),
            .mount "/etc" "/etc" "none" MS_BIND, .mount "" "/etc" "none" MS_PRIVATE]))
          { trace := s.trace ++ [.asprintf ("/etc/netns/" ++ name),
              .mount "/etc" "/etc" "none" MS_BIND, .mount "" "/etc" "none" MS_PRIVATE,
              .opendir ("/etc/netns/" ++ name)], errno := s.errno }
        simp [bind_etc, etc_netns_path_eq, asprintf_ok w halloc, hsz, mount, call0_ok,
          opendir_ok, hbind, hpriv, hopen, ha, emit]
      · obtain ⟨hn, ht⟩ := opendir_fail w ("/etc/netns/" ++ name)
          { trace := s.trace ++ [.asprintf ("/etc/netns/" ++ name),
              .mount "/etc" "/etc" "none" MS_BIND, .mount "" "/etc" "none" MS_PRIVATE],
            errno := s.errno } hopen
        simp [bind_etc, etc_netns_path_eq, asprintf_ok w halloc, hsz, mount, call0_ok,
          hbind, hpriv, hopen, hn, ht, emit, callsMade, Call.isMount]
    · simp [bind_etc, etc_netns_path_eq, asprintf_ok w halloc, hsz, mount, call0_ok,
        call0_fst, call0_trace, hbind, hpriv, emit, syslog, callsMade, Call.isMount]
  · simp [bind_etc, etc_netns_path_eq, asprintf_ok w halloc, hsz, mount,
      call0_fst, call0_trace, hbind, emit, syslog, callsMade, Call.isMount]

/-- C8 at a concrete input: setup succeeds and the bind mount of resolv.conf
fails, yet bind_etc returns 0. -/
theorem bind_etc_result_witness :
    (bind_etc worldBrokenEntry "alice" St.init).1 = 0 :=
  (bind_etc_result worldBrokenEntry "alice" St.init allocOk_worldBrokenEntry).1.mpr
    ⟨by decide, by decide, by decide⟩

/-! ## The session entry point -/

/-- C10: when pam_get_user does not return PAM_SUCCESS, pam_sm_open_session
returns PAM_SUCCESS, and the only calls it makes are the log set-up, the
lookup, one log line and the log close: no group-membership query and no
provisioning operation. -/
theorem open_session_lookup_failure (w : World) (s : St)
    (hu : (lookup w s).1.1 ≠ PAM_SUCCESS) :
    (pam_sm_open_session w s).1 = PAM_SUCCESS ∧
    (pam_sm_open_session w s).1 ≠ PAM_ABORT ∧
    (pam_sm_open_session w s).1 ≠ PAM_IGNORE ∧
    callsMade s (pam_sm_open_session w s).2 =
      [.setlogmask LOG_NOTICE, .openlog "pam_usernet", .pam_get_user,
       .syslog LOG_ERR "get user: %s", .closelog] ∧
    (∀ c ∈ callsMade s (pam_sm_open_session w s).2,
      c.isProvisioning = false ∧ ∀ u g, c ≠ .checkgroup u g) := by
  simp only [lookup, pam_get_user, init_log, emit] at hu
  simp only [List.append_assoc, List.cons_append, List.nil_append] at hu
  have h : callsMade s (pam_sm_open_session w s).2 =
      [.setlogmask LOG_NOTICE, .openlog "pam_usernet", .pam_get_user,
       .syslog LOG_ERR "get user: %s", .closelog] := by
    simp [pam_sm_open_session, hu, callsMade, end_log, syslog, emit, init_log, pam_get_user]
  have hr : (pam_sm_open_session w s).1 = PAM_SUCCESS := by
    simp [pam_sm_open_session, hu, emit, init_log, pam_get_user]
  refine ⟨hr, ?_, ?_, h, ?_⟩
  · rw [hr]
    decide
  · rw [hr]
    decide
  · rw [h]
    simp [Call.isProvisioning]

/-- C10 at a concrete input: the lookup fails with PAM_SYSTEM_ERR. -/
theorem open_session_lookup_failure_witness :
    (pam_sm_open_session worldNoUser St.init).1 = PAM_SUCCESS :=
  (open_session_lookup_failure worldNoUser St.init (by decide)).1

/-- C3: when the lookup succeeds and checkgroup(user, "usernet") returns a
value that is not positive, pam_sm_open_session returns PAM_IGNORE, and the
only calls it makes are the log set-up, the lookup, the membership query and
the log close: no provisioning operation. -/
theorem open_session_not_participant (w : World) (s : St)
    (hu : (lookup w s).1.1 = PAM_SUCCESS) (hg : (membership w s).1 ≤ 0) :
    (pam_sm_open_session w s).1 = PAM_IGNORE ∧
    callsMade s (pam_sm_open_session w s).2 =
      [.setlogmask LOG_NOTICE, .openlog "pam_usernet", .pam_get_user,
       .checkgroup (lookup w s).1.2 "usernet", .closelog] ∧
    (∀ c ∈ callsMade s (pam_sm_open_session w s).2, c.isProvisioning = false) := by
  simp only [membership, checkgroup, lookup, pam_get_user, init_log, emit] at hu hg
  simp only [List.append_assoc, List.cons_append, List.nil_append] at hu hg
  have h : callsMade s (pam_sm_open_session w s).2 =
      [.setlogmask LOG_NOTICE, .openlog "pam_usernet", .pam_get_user,
       .checkgroup (lookup w s).1.2 "usernet", .closelog] := by
    simp [pam_sm_open_session, hu, hg, callsMade, end_log, emit, init_log, pam_get_user,
      checkgroup, lookup]
  refine ⟨?_, h, ?_⟩
  · simp [pam_sm_open_session, hu, hg, emit, init_log, pam_get_user, checkgroup]
  · rw [h]
    simp [Call.isProvisioning]

/-- C3 at a concrete input: `bob` is not in the group. -/
theorem open_session_not_participant_witness :
    (pam_sm_open_session worldNotMember St.init).1 = PAM_IGNORE :=
  (open_session_not_participant worldNotMember St.init (by decide) (by decide)).1

/-- C2: for a participant (the lookup succeeds, checkgroup is positive and the
handle path is formatted), pam_sm_open_session runs create_netns_rundir,
enter_netns, unshare(CLONE_NEWNS), remount_sys and bind_etc as the pipeline
`run_steps` does: in this order, each step only if every earlier one reported
success, followed only by log calls.  It returns PAM_SUCCESS exactly when all
five steps report success and PAM_ABORT exactly when one of them reports
failure. -/
theorem open_session_pipeline (w : World) (s : St)
    (hu : (lookup w s).1.1 = PAM_SUCCESS) (hg : 0 < (membership w s).1)
    (hfmt : (asprintf w (NETNS_RUN_DIR ++ "/" ++ (lookup w s).1.2)
      (create_netns_rundir w (membership w s).2).2).1 ≠ -1) :
    let user := (lookup w s).1.2
    let ns_path := NETNS_RUN_DIR ++ "/" ++ user
    let r1 := create_netns_rundir w (membership w s).2
    let r2 := enter_netns w ns_path (asprintf w ns_path r1.2).2
    let r3 := unshare w CLONE_NEWNS r2.2
    let r4 := remount_sys w user r3.2
    let r5 := bind_etc w user r4.2
    let p := run_steps
      [create_netns_rundir w,
       fun st => enter_netns w ns_path (asprintf w ns_path st).2,
       unshare w CLONE_NEWNS,
       remount_sys w user,
       bind_etc w user] (membership w s).2
    let r := pam_sm_open_session w s
    (r.1 = if p.1 then PAM_SUCCESS else PAM_ABORT) ∧
    (∃ tail : List Call, r.2.trace = p.2.trace ++ tail ∧ ∀ c ∈ tail, c.isLog = true) ∧
    (r.1 = PAM_SUCCESS ↔ r1.1 ≠ -1 ∧ r2.1 ≠ -1 ∧ r3.1 ≠ -1 ∧ r4.1 ≠ -1 ∧ r5.1 ≠ -1) ∧
    (r.1 = PAM_ABORT ↔ r1.1 = -1 ∨ r2.1 = -1 ∨ r3.1 = -1 ∨ r4.1 = -1 ∨ r5.1 = -1) := by
  intro user ns_path r1 r2 r3 r4 r5 p r
  have hg2 : ¬ (membership w s).1 ≤ 0 := by omega
  have hr : r = if r1.1 = -1 then close_log_and_abort r1.2
      else if r2.1 = -1 then close_log_and_abort r2.2
      else if r3.1 = -1 then
        close_log_and_abort (syslog LOG_ERR "unshare(mount) failed: %s\n" r3.2)
      else if r4.1 = -1 then
        close_log_and_abort (syslog LOG_ERR "remounting /sys failed" r4.2)
      else if r5.1 = -1 then
        close_log_and_abort (syslog LOG_ERR "mounting /etc/netns/%s config files failed" r5.2)
      else (PAM_SUCCESS, end_log r5.2) := by
    simp only [lookup, membership] at hu hg2 hfmt
    simp only [r, r1, r2, r3, r4, r5, ns_path, user, lookup, membership, pam_sm_open_session,
      hu, hg2, hfmt, unshare_neg_iff, ne_eq, not_true_eq_false, if_false]
  have hp : p = if r1.1 = -1 then (false, r1.2)
      else if r2.1 = -1 then (false, r2.2)
      else if r3.1 = -1 then (false, r3.2)
      else if r4.1 = -1 then (false, r4.2)
      else if r5.1 = -1 then (false, r5.2)
      else (true, r5.2) := by
    simp only [p, run_steps, r1, r2, r3, r4, r5]
  have hne : PAM_ABORT ≠ PAM_SUCCESS := by decide
  rw [hr, hp]
  by_cases h1 : r1.1 = -1
  · exact ⟨by simp [h1, close_log_and_abort], ⟨[.closelog],
      by simp [h1, close_log_and_abort, end_log, emit], by simp [Call.isLog]⟩,
      by simp [h1, close_log_and_abort, hne], by simp [h1, close_log_and_abort]⟩
  by_cases h2 : r2.1 = -1
  · exact ⟨by simp [h1, h2, close_log_and_abort], ⟨[.closelog],
      by simp [h1, h2, close_log_and_abort, end_log, emit], by simp [Call.isLog]⟩,
      by simp [h1, h2, close_log_and_abort, hne], by simp [h1, h2, close_log_and_abort]⟩
  by_cases h3 : r3.1 = -1
  · exact ⟨by simp [h1, h2, h3, close_log_and_abort],
      ⟨[.syslog LOG_ERR "unshare(mount) failed: %s\n", .closelog],
      by simp [h1, h2, h3, close_log_and_abort, end_log, syslog, emit], by simp [Call.isLog]⟩,
      by simp [h1, h2, h3, close_log_and_abort, hne],
      by simp [h1, h2, h3, close_log_and_abort]⟩
  by_cases h4 : r4.1 = -1
  · exact ⟨by simp [h1, h2, h3, h4, close_log_and_abort],
      ⟨[.syslog LOG_ERR "remounting /sys failed", .closelog],
      by simp [h1, h2, h3, h4, close_log_and_abort, end_log, syslog, emit],
      by simp [Call.isLog]⟩,
      by simp [h1, h2, h3, h4, close_log_and_abort, hne],
      by simp [h1, h2, h3, h4, close_log_and_abort]⟩
  by_cases h5 : r5.1 = -1
  · exact ⟨by simp [h1, h2, h3, h4, h5, close_log_and_abort],
      ⟨[.syslog LOG_ERR "mounting /etc/netns/%s config files failed", .closelog],
      by simp [h1, h2, h3, h4, h5, close_log_and_abort, end_log, syslog, emit],
      by simp [Call.isLog]⟩,
      by simp [h1, h2, h3, h4, h5, close_log_and_abort, hne],
      by simp [h1, h2, h3, h4, h5, close_log_and_abort]⟩
  · exact ⟨by simp [h1, h2, h3, h4, h5], ⟨[.closelog],
      by simp [h1, h2, h3, h4, h5, end_log, emit], by simp [Call.isLog]⟩,
      by simp [h1, h2, h3, h4, h5], by simp [h1, h2, h3, h4, h5, hne.symm]⟩

/-- C2 at concrete inputs: a session where every step succeeds, and one where
unshare(CLONE_NEWNS) fails. -/
theorem open_session_pipeline_witness :
    (pam_sm_open_session (worldOk ["resolv.conf"]) St.init).1 = PAM_SUCCESS ∧
    (pam_sm_open_session worldNoMountNs St.init).1 = PAM_ABORT :=
  ⟨(open_session_pipeline (worldOk ["resolv.conf"]) St.init (by decide) (by decide)
      (by decide)).2.2.1.mpr (by decide),
   (open_session_pipeline worldNoMountNs St.init (by decide) (by decide)
      (by decide)).2.2.2.mpr (by decide)⟩

end PamUsernet
